/-
Verification of the pharmacy order-lifecycle and inventory core.

This file gives a shallow embedding, in Lean 4, of the order lifecycle,
stock validation, inventory enrichment, inventory listing and chat-lock
logic of the backend (files `pharmacy/service.py`, `pharmacy_v2.py`,
`pharmacy/inventory_service.py`, `pharmacy/chat_service.py`,
`app/services/inventory_agent.py`), and proves or refutes the claims of
the specification against it.

Conventions of the embedding:
  - wall-clock instants are integers (POSIX seconds); the Python
    `timedelta.days` of a difference is floor division by 86400
    (`Int.fdiv`), matching Python's floor semantics;
  - Firestore documents become Lean structures; "get with default"
    reads of possibly-missing fields become `Option` fields read with
    `Option.getD`;
  - the Firestore (non-mock) branches of the services are the embedded
    code paths; the store is an association list keyed by document id;
  - side effects (patient notification, inventory decrement task,
    timeline append) are recorded as an explicit event trace in the
    order in which the Python code dispatches them: effects performed
    inside the request handler appear first, FastAPI background tasks
    run after the handler returns, in the order they were added.
-/

import Mathlib

namespace Pharmacy

/-- Order status enum, from `pharmacy/models.py` (`PrescriptionStatus`). -/
inductive PrescriptionStatus
  | NEW
  | ACCEPTED
  | PREPARING
  | READY
  | DELIVERED
  | PICKED_UP
  | REJECTED
deriving DecidableEq, Repr

/-- Status to UI chip colour, from `pharmacy/service.py` (`STATUS_COLOR_MAP`). -/
def STATUS_COLOR_MAP : PrescriptionStatus → String
  | .NEW => "teal"
  | .ACCEPTED => "blue"
  | .PREPARING => "amber"
  | .READY => "green"
  | .DELIVERED => "green"
  | .PICKED_UP => "gray"
  | .REJECTED => "red"

/- ──────────────────────────────────────────────
   Inventory enrichment (`pharmacy/inventory_service.py`)
   ────────────────────────────────────────────── -/

/-- Default low-stock threshold (`LOW_STOCK_THRESHOLD` in
`pharmacy/inventory_service.py`). -/
def LOW_STOCK_THRESHOLD : Int := 10

/-- Expiry warning window in days (`EXPIRY_WINDOW_DAYS`). -/
def EXPIRY_WINDOW_DAYS : Int := 30

/-- Value stored under `expiry_date` in a raw inventory document: absent,
a Firestore timestamp (datetime), or a string to be parsed. -/
inductive StoredExpiry
  | absent
  | dt (t : Int)
  | str (s : String)
deriving DecidableEq, Repr

/-- Raw inventory document as stored: every field may be missing, mirroring
the `d.get(...)` reads of `_enrich_item`. -/
structure InventoryDoc where
  drug_name : Option String
  strength : Option String
  quantity : Option Int
  threshold : Option Int
  expiry_date : StoredExpiry
  batch_number : Option String
deriving DecidableEq, Repr

/-- Digit run to number; `none` when the run is empty or has a non-digit
character. -/
def parseDigits (cs : List Char) : Option Nat :=
  if cs.isEmpty then none
  else
    cs.foldl
      (fun acc c =>
        match acc with
        | some n => if c.isDigit then some (n * 10 + (c.toNat - 48)) else none
        | none => none)
      (some 0)

/-- Split a character run on the dash separator. -/
def splitOnDash : List Char → List (List Char)
  | [] => [[]]
  | c :: cs =>
    let r := splitOnDash cs
    if c = '-' then [] :: r
    else
      match r with
      | [] => [[c]]
      | g :: gs => (c :: g) :: gs

/-- Days since the Unix epoch of a civil date (proleptic Gregorian). -/
def daysFromCivil (y m d : Int) : Int :=
  let y2 := if m ≤ 2 then y - 1 else y
  let era := y2.fdiv 400
  let yoe := y2 - era * 400
  let mp := (m + 9).emod 12
  let doy := (153 * mp + 2).fdiv 5 + d - 1
  let doe := yoe * 365 + yoe.fdiv 4 - yoe.fdiv 100 + doy
  era * 146097 + doe - 719468

/-- Model of `datetime.fromisoformat` as used on stored expiry strings:
reads the leading `YYYY-MM-DD` date and yields a POSIX timestamp in
seconds; malformed input yields `none` (the Python call raises, and
`_enrich_item` catches the error and falls back to no expiry). -/
def fromisoformat (s : String) : Option Int :=
  match splitOnDash (s.data.take 10) with
  | [ys, ms, ds] =>
    if ys.length = 4 ∧ ms.length = 2 ∧ ds.length = 2 then
      match parseDigits ys, parseDigits ms, parseDigits ds with
      | some y, some m, some d =>
        if 1 ≤ m ∧ m ≤ 12 ∧ 1 ≤ d ∧ d ≤ 31 then
          some (86400 * daysFromCivil (y : Int) (m : Int) (d : Int))
        else none
      | _, _, _ => none
    else none
  | _ => none

/-- Enriched inventory row returned by `_enrich_item`. -/
structure EnrichedItem where
  id : String
  drug_name : String
  strength : String
  quantity : Int
  expiry_ts : Option Int
  batch_number : String
  threshold : Int
  is_low_stock : Bool
  is_expiring_soon : Bool
deriving DecidableEq, Repr

/-- Embedding of `_enrich_item(d, doc_id)` from
`pharmacy/inventory_service.py`, with the caller's current time `now`
passed explicitly. A missing `quantity` defaults to 0, a missing
`threshold` to `LOW_STOCK_THRESHOLD`; an expiry stored as a string is
parsed, and a missing, empty or unparseable expiry leaves the item
without an expiry, in which case `is_expiring_soon` is `false`. -/
def _enrich_item (d : InventoryDoc) (doc_id : String) (now : Int) : EnrichedItem :=
  let quantity := d.quantity.getD 0
  let threshold := d.threshold.getD LOW_STOCK_THRESHOLD
  let expiry : Option Int :=
    match d.expiry_date with
    | .absent => none
    | .dt t => some t
    | .str s => if s = "" then none else fromisoformat s
  let is_low : Bool := decide (quantity < threshold)
  let is_expiring : Bool :=
    match expiry with
    | some e => decide ((e - now).fdiv 86400 < EXPIRY_WINDOW_DAYS)
    | none => false
  { id := doc_id
    drug_name := d.drug_name.getD ""
    strength := d.strength.getD ""
    quantity := quantity
    expiry_ts := expiry
    batch_number := d.batch_number.getD ""
    threshold := threshold
    is_low_stock := is_low
    is_expiring_soon := is_expiring }

/- ──────────────────────────────────────────────
   Inventory listing order (`pharmacy/inventory_service.py`)
   ────────────────────────────────────────────── -/

/-- Ledger stock-keeping record (`InventoryItem` in `pharmacy/models.py`);
`expiry_date` is a timestamp in seconds (ISO-8601 strings of one format
compare lexicographically exactly as their instants do, so the mock
path's string sort and the Firestore `order_by` both order by this key). -/
structure InventoryItem where
  id : String
  drug_name : String
  quantity : Int
  expiry_date : Int
  threshold : Int
deriving DecidableEq, Repr

/-- Stable insertion into an expiry-sorted list: the new element goes in
front of the first element with an expiry not smaller than its own, so
elements inserted earlier keep their place among equal keys. This models
the stable sort (`seed.sort(key=...expiry_date)`) used by the listing. -/
def insertByExpiry (a : InventoryItem) : List InventoryItem → List InventoryItem
  | [] => [a]
  | b :: l => if a.expiry_date ≤ b.expiry_date then a :: b :: l else b :: insertByExpiry a l

/-- Stable sort by ascending expiry date, the order `list_inventory`
returns (mock path: Python's stable `list.sort` keyed on the expiry;
Firestore path: `order_by("expiry_date")`). -/
def sortByExpiry : List InventoryItem → List InventoryItem
  | [] => []
  | x :: xs => insertByExpiry x (sortByExpiry xs)

/-- Embedding of `list_inventory`: the stored items sorted by ascending
expiry date. -/
def list_inventory (items : List InventoryItem) : List InventoryItem :=
  sortByExpiry items

/- ──────────────────────────────────────────────
   Chat service (`pharmacy/chat_service.py`)
   ────────────────────────────────────────────── -/

/-- Statuses that lock the chat (`_LOCKED_STATUSES`). -/
def _LOCKED_STATUSES : List PrescriptionStatus :=
  [PrescriptionStatus.DELIVERED, PrescriptionStatus.PICKED_UP]

/-- Embedding of `_is_chat_locked`. -/
def _is_chat_locked (status : PrescriptionStatus) : Bool :=
  _LOCKED_STATUSES.contains status

/-- One stored chat message (`ChatMessage` in `pharmacy/models.py`). -/
structure ChatMessage where
  id : String
  order_id : String
  sender : String
  message : String
  category : String
  created_at : Int
deriving DecidableEq, Repr

/-- State the chat service reads and writes: the status field of each
order document, and the stored messages. -/
structure ChatState where
  order_status : List (String × PrescriptionStatus)
  messages : List ChatMessage
deriving DecidableEq, Repr

/-- Failure kinds of the chat operations (the service returns them as
error strings; the router maps them to 404 / 403). -/
inductive ChatError
  | OrderNotFound (order_id : String)
  | ChatLocked (order_id : String)
deriving DecidableEq, Repr

/-- Embedding of `_get_order_status`: current status of an order, `none`
when the order does not exist. -/
def _get_order_status (st : ChatState) (order_id : String) : Option PrescriptionStatus :=
  (st.order_status.find? (fun p => p.1 == order_id)).map (·.2)

/-- Embedding of `send_message`: rejected when the order is unknown or its
chat is locked (state unchanged in both cases); otherwise the message is
stored and returned. `msg_id` and `now` stand for the generated id and
the current time. -/
def send_message (st : ChatState) (order_id sender message category : String)
    (msg_id : String) (now : Int) : ChatState × Except ChatError ChatMessage :=
  match _get_order_status st order_id with
  | none => (st, .error (.OrderNotFound order_id))
  | some status =>
    if _is_chat_locked status then
      (st, .error (.ChatLocked order_id))
    else
      let msg : ChatMessage :=
        { id := msg_id, order_id := order_id, sender := sender,
          message := message, category := category, created_at := now }
      ({ st with messages := st.messages ++ [msg] }, .ok msg)

/-- Result of `get_chat_history`: the order's messages and the lock flag
telling the frontend to disable the input box. -/
structure ChatHistory where
  messages : List ChatMessage
  is_locked : Bool
deriving DecidableEq, Repr

/-- Embedding of `get_chat_history`: fails only when the order does not
exist; otherwise returns the (possibly empty) message list and the lock
flag. -/
def get_chat_history (st : ChatState) (order_id : String) : Except ChatError ChatHistory :=
  match _get_order_status st order_id with
  | none => .error (.OrderNotFound order_id)
  | some status =>
    .ok { messages := st.messages.filter (fun m => m.order_id == order_id),
          is_locked := _is_chat_locked status }

/- ──────────────────────────────────────────────
   Order lifecycle (`pharmacy/service.py`, `pharmacy_v2.py`)
   ────────────────────────────────────────────── -/

/-- Order document as stored in `pharmacy_orders` (the fields the
lifecycle reads and writes); `medications` keeps the drug names of the
line items in prescription order. -/
structure OrderDoc where
  status : PrescriptionStatus
  medications : List String
  created_at : Option Int
  accepted_at : Option Int
  ready_at : Option Int
  completed_at : Option Int
deriving DecidableEq, Repr

/-- Whole persistent state the lifecycle endpoints touch: the order store
and the inventory ledger. -/
structure PharmacySys where
  orders : List (String × OrderDoc)
  inventory : List InventoryItem
deriving DecidableEq, Repr

/-- Read an order document by id (Firestore `document(order_id).get()`). -/
def lookupOrder (sys : PharmacySys) (order_id : String) : Option OrderDoc :=
  (sys.orders.find? (fun p => p.1 == order_id)).map (·.2)

/-- Write back an order document (`doc_ref.update(...)`); a no-op when the
id is absent, as the caller only updates documents it has just read. -/
def setOrder (sys : PharmacySys) (order_id : String) (doc : OrderDoc) : PharmacySys :=
  { sys with orders := sys.orders.map (fun p => if p.1 == order_id then (p.1, doc) else p) }

/-- Observable side effects, in dispatch order: the patient notification
fired by `_notify_patient_ready`, the store commit of the status update
payload, the background inventory decrement task, and the background
timeline append (`log_status_change`). -/
inductive Event
  | notifyReady (order_id : String)
  | commitStatus (order_id : String) (status : PrescriptionStatus)
  | decrement (order_id : String)
  | logStatus (order_id : String) (old_status new_status : PrescriptionStatus) (actor_id : String)
deriving DecidableEq, Repr

/-- Response of `update_order_status` (id, new status, chip colour,
update instant). -/
structure StatusUpdateResult where
  id : String
  status : PrescriptionStatus
  color_code : String
  updated_at : Int
deriving DecidableEq, Repr

/-- Embedding of `update_order_status(order_id, new_status)` from
`pharmacy/service.py` (Firestore branch). Returns the new store, the
result (`none` means the order does not exist, surfaced as 404), and the
trace of effects it performs, in order. Faithful to the source: no
legality check of the transition is made; the timestamp matching the
target status is set to `now` unconditionally; on a transition to READY
the patient notification is fired before the store commit. -/
def update_order_status (sys : PharmacySys) (order_id : String)
    (new_status : PrescriptionStatus) (now : Int) :
    PharmacySys × Option StatusUpdateResult × List Event :=
  match lookupOrder sys order_id with
  | none => (sys, none, [])
  | some doc =>
    let doc1 : OrderDoc :=
      { doc with
        status := new_status
        accepted_at := if new_status = .ACCEPTED then some now else doc.accepted_at
        ready_at := if new_status = .READY then some now else doc.ready_at
        completed_at :=
          if new_status = .DELIVERED ∨ new_status = .PICKED_UP then some now
          else doc.completed_at }
    let events :=
      (if new_status = .READY then [Event.notifyReady order_id] else [])
        ++ [Event.commitStatus order_id new_status]
    (setOrder sys order_id doc1,
     some { id := order_id, status := new_status,
            color_code := STATUS_COLOR_MAP new_status, updated_at := now },
     events)

/-- One line of the missing-item report of stock validation. -/
structure MissingItem where
  drug_name : String
  needed : Int
  available : Int
deriving DecidableEq, Repr

/-- A stock validator: from the order's medication line items and the
ledger, whether all are available plus the missing-item report. -/
abbrev StockValidator := List String → List InventoryItem → Bool × List MissingItem

/-- Embedding of `validate_stock_for_order` exactly as it stands in
`app/services/inventory_agent.py`: a mock that reports every order as
fully available. -/
def validate_stock_for_order_mock : StockValidator :=
  fun _ _ => (true, [])

/-- Quantity of a drug available in the ledger: the quantity of the first
record with that drug name, 0 when there is none. -/
def available_quantity (inv : List InventoryItem) (drug : String) : Int :=
  match inv.find? (fun it => it.drug_name == drug) with
  | none => 0
  | some it => it.quantity

/-- Stock validator as the specification describes it (§4.2): each line
item is looked up in the ledger by drug name; an item with no matching
record, or with available quantity below the implied need of 1 unit, is
reported as missing with its needed and available quantities; the order
is valid when nothing is missing. No mutation is performed. The
validator the source actually ships is the always-valid stub
`validate_stock_for_order_mock` above; this spec-described validator is
used only to instantiate the validator-generic lifecycle theorems at
inputs where every line item is in stock or the gate does not run — on
those inputs its verdict coincides with the stub's. -/
def validate_stock_for_order_spec : StockValidator :=
  fun meds inv =>
    let missing := meds.filterMap (fun drug =>
      match inv.find? (fun it => it.drug_name == drug) with
      | none => some { drug_name := drug, needed := 1, available := 0 }
      | some it =>
        if it.quantity < 1 then some { drug_name := drug, needed := 1, available := it.quantity }
        else none)
    (missing.isEmpty, missing)

/-- Response of the agentic status endpoint: success, HTTP 404
(order unknown), or HTTP 400 with `INSUFFICIENT_STOCK` detail. -/
inductive TransitionResponse
  | ok (result : StatusUpdateResult)
  | orderNotFound (order_id : String)
  | insufficientStock (missing : List MissingItem)
deriving DecidableEq, Repr

/-- Embedding of `agentic_status_update` from `pharmacy_v2.py`,
parameterized by the stock validator it imports. Faithful to the source:
the current order is read (404 when unknown); for a target of ACCEPTED or
PREPARING the validator runs first and a failure aborts with the missing
items and no state change; on a target of ACCEPTED a background
decrement task is added; the status update then runs, and a background
timeline append is added. Background tasks execute after the handler, in
the order added, so the trace is the update's own effects, then the
decrement, then the timeline append. -/
def agentic_status_update (validate : StockValidator) (sys : PharmacySys)
    (order_id : String) (target : PrescriptionStatus) (actor_id : String) (now : Int) :
    PharmacySys × TransitionResponse × List Event :=
  match lookupOrder sys order_id with
  | none => (sys, .orderNotFound order_id, [])
  | some detail =>
    let old_status := detail.status
    let gate : Option (List MissingItem) :=
      if target = .ACCEPTED ∨ target = .PREPARING then
        let v := validate detail.medications sys.inventory
        if v.1 then none else some v.2
      else none
    match gate with
    | some missing => (sys, .insufficientStock missing, [])
    | none =>
      let bg_decrement := if target = .ACCEPTED then [Event.decrement order_id] else []
      let u := update_order_status sys order_id target now
      match u.2.1 with
      | none => (u.1, .orderNotFound order_id, u.2.2)
      | some result =>
        (u.1, .ok result,
         u.2.2 ++ bg_decrement ++ [Event.logStatus order_id old_status target actor_id])

/-- One transition request `(order_id, target_status, actor_id)` arriving
at instant `now`. -/
structure TransitionRequest where
  order_id : String
  target : PrescriptionStatus
  actor_id : String
  now : Int
deriving DecidableEq, Repr

/-- Run a sequence of transition requests, accumulating the global effect
trace. -/
def runRequests (validate : StockValidator) (sys : PharmacySys) :
    List TransitionRequest → PharmacySys × List Event
  | [] => (sys, [])
  | r :: rs =>
    let step := agentic_status_update validate sys r.order_id r.target r.actor_id r.now
    let rest := runRequests validate step.1 rs
    (rest.1, step.2.2 ++ rest.2)

/-- Number of inventory-decrement invocations for one order id in a
trace. -/
def countDecrements (evs : List Event) (order_id : String) : Nat :=
  (evs.filter (fun e => decide (e = Event.decrement order_id))).length

/- ──────────────────────────────────────────────
   Theorems: inventory enrichment (claims C6, C10)
   ────────────────────────────────────────────── -/

/-- C6: for every inventory item read whose quantity, threshold and
expiry date are present, the derived flags recompute as
`is_low_stock = quantity < threshold` and
`is_expiring_soon = (expiry_date - now).days < 30`, the day count being
floor division of the difference by 86400 seconds. -/
theorem enrich_flags_correct (d : InventoryDoc) (doc_id : String) (now q t e : Int)
    (hq : d.quantity = some q) (ht : d.threshold = some t) (he : d.expiry_date = .dt e) :
    (_enrich_item d doc_id now).is_low_stock = decide (q < t)
    ∧ (_enrich_item d doc_id now).is_expiring_soon = decide ((e - now).fdiv 86400 < 30) := by
  constructor <;> simp [_enrich_item, hq, ht, he, EXPIRY_WINDOW_DAYS]

/-- Concrete document for the C6 witness: quantity 8, threshold 10, expiry
exactly 10 days after instant 0. -/
def docC6 : InventoryDoc :=
  { drug_name := some "Paracetamol", strength := some "650mg", quantity := some 8,
    threshold := some 10, expiry_date := .dt 864000, batch_number := some "BTX-20251210" }

/-- Concrete document for the C6 witness: expiry 45 days after instant 0. -/
def docC6far : InventoryDoc :=
  { drug_name := some "Escitalopram", strength := some "10mg", quantity := some 40,
    threshold := some 10, expiry_date := .dt 3888000, batch_number := some "BTX-20251010" }

/-- Witness for C6 at the spec's example values: quantity 8 with threshold
10 is low stock; expiry 10 days out is expiring soon; expiry 45 days out
is not. -/
theorem enrich_flags_correct_witness :
    docC6.quantity = some 8 ∧ docC6.threshold = some 10 ∧ docC6.expiry_date = .dt 864000
    ∧ ((_enrich_item docC6 "INV-002" 0).is_low_stock = decide ((8 : Int) < 10)
        ∧ (_enrich_item docC6 "INV-002" 0).is_expiring_soon
            = decide (((864000 : Int) - 0).fdiv 86400 < 30))
    ∧ (_enrich_item docC6 "INV-002" 0).is_low_stock = true
    ∧ (_enrich_item docC6 "INV-002" 0).is_expiring_soon = true
    ∧ (_enrich_item docC6far "INV-019" 0).is_expiring_soon = false :=
  ⟨rfl, rfl, rfl, enrich_flags_correct docC6 "INV-002" 0 8 10 864000 rfl rfl rfl,
   by decide, by decide, by decide⟩

/-- C10: enrichment is total on permissive documents (it is a Lean
function, so it never raises): a missing quantity is read as 0, a missing
threshold as the default 10, and a missing or unparseable expiry date
yields `is_expiring_soon = false`. -/
theorem enrich_total_on_permissive (d : InventoryDoc) (doc_id : String) (now : Int) :
    (d.quantity = none → (_enrich_item d doc_id now).quantity = 0)
    ∧ (d.threshold = none → (_enrich_item d doc_id now).threshold = 10)
    ∧ (d.expiry_date = .absent → (_enrich_item d doc_id now).is_expiring_soon = false)
    ∧ (∀ s, d.expiry_date = .str s → fromisoformat s = none →
        (_enrich_item d doc_id now).is_expiring_soon = false) := by
  refine ⟨fun h => ?_, fun h => ?_, fun h => ?_, fun s h hs => ?_⟩
  · simp [_enrich_item, h]
  · simp [_enrich_item, h, LOW_STOCK_THRESHOLD]
  · simp [_enrich_item, h]
  · by_cases hse : s = "" <;> simp [_enrich_item, h, hs, hse]

/-- Concrete fully-missing document with an unparseable expiry for the
C10 witness. -/
def docC10 : InventoryDoc :=
  { drug_name := none, strength := none, quantity := none, threshold := none,
    expiry_date := .str "not-a-date", batch_number := none }

/-- Concrete document with no expiry at all for the C10 witness. -/
def docC10absent : InventoryDoc :=
  { drug_name := none, strength := none, quantity := none, threshold := none,
    expiry_date := .absent, batch_number := none }

/-- Witness for C10: a document with every field missing and an
unparseable expiry string enriches to quantity 0, threshold 10 and no
expiry warning; so does one with no expiry at all. -/
theorem enrich_total_on_permissive_witness :
    docC10.quantity = none ∧ docC10.threshold = none
    ∧ docC10.expiry_date = .str "not-a-date" ∧ fromisoformat "not-a-date" = none
    ∧ (_enrich_item docC10 "X1" 0).quantity = 0
    ∧ (_enrich_item docC10 "X1" 0).threshold = 10
    ∧ (_enrich_item docC10 "X1" 0).is_expiring_soon = false
    ∧ docC10absent.expiry_date = .absent
    ∧ (_enrich_item docC10absent "X2" 0).is_expiring_soon = false :=
  ⟨rfl, rfl, rfl, by decide,
   (enrich_total_on_permissive docC10 "X1" 0).1 rfl,
   (enrich_total_on_permissive docC10 "X1" 0).2.1 rfl,
   (enrich_total_on_permissive docC10 "X1" 0).2.2.2 "not-a-date" rfl (by decide),
   rfl,
   (enrich_total_on_permissive docC10absent "X2" 0).2.2.1 rfl⟩

/- ──────────────────────────────────────────────
   Theorems: chat lock (claims C8, C9)
   ────────────────────────────────────────────── -/

/-- C8: the lock predicate holds exactly on DELIVERED and PICKED_UP;
sending on a locked order fails with ChatLocked and stores nothing,
sending on an unknown order fails with OrderNotFound and stores nothing,
and history retrieval on an existing order always succeeds (possibly with
no messages) and reports the lock flag. -/
theorem chat_lock_policy :
    (∀ s, _is_chat_locked s = true
        ↔ (s = PrescriptionStatus.DELIVERED ∨ s = PrescriptionStatus.PICKED_UP))
    ∧ (∀ st oid sender msg cat mid now s,
        _get_order_status st oid = some s → _is_chat_locked s = true →
        send_message st oid sender msg cat mid now = (st, .error (.ChatLocked oid)))
    ∧ (∀ st oid sender msg cat mid now,
        _get_order_status st oid = none →
        send_message st oid sender msg cat mid now = (st, .error (.OrderNotFound oid)))
    ∧ (∀ st oid s, _get_order_status st oid = some s →
        get_chat_history st oid
          = .ok { messages := st.messages.filter (fun m => m.order_id == oid),
                  is_locked := _is_chat_locked s }) := by
  refine ⟨fun s => ?_, fun st oid sender msg cat mid now s h hl => ?_,
          fun st oid sender msg cat mid now h => ?_, fun st oid s h => ?_⟩
  · cases s <;> simp [_is_chat_locked, _LOCKED_STATUSES]
  · simp [send_message, h, hl]
  · simp [send_message, h]
  · simp [get_chat_history, h]

/-- Concrete chat state for the C8 witness: order RX-LOCKED is
DELIVERED. -/
def chatStC8 : ChatState :=
  { order_status := [("RX-LOCKED", PrescriptionStatus.DELIVERED)], messages := [] }

/-- Witness for C8 at the spec's scenario: sending on delivered RX-LOCKED
fails with ChatLocked leaving the state unchanged, sending on an unknown
order fails with OrderNotFound, and history for RX-LOCKED succeeds with
the lock flag set. -/
theorem chat_lock_policy_witness :
    (_is_chat_locked PrescriptionStatus.DELIVERED = true
      ↔ (PrescriptionStatus.DELIVERED = PrescriptionStatus.DELIVERED
          ∨ PrescriptionStatus.DELIVERED = PrescriptionStatus.PICKED_UP))
    ∧ _get_order_status chatStC8 "RX-LOCKED" = some PrescriptionStatus.DELIVERED
    ∧ send_message chatStC8 "RX-LOCKED" "PATIENT" "hello" "general" "MSG-1" 5
        = (chatStC8, .error (.ChatLocked "RX-LOCKED"))
    ∧ _get_order_status chatStC8 "RX-9999" = none
    ∧ send_message chatStC8 "RX-9999" "PATIENT" "hello" "general" "MSG-1" 5
        = (chatStC8, .error (.OrderNotFound "RX-9999"))
    ∧ get_chat_history chatStC8 "RX-LOCKED" = .ok { messages := [], is_locked := true } :=
  ⟨chat_lock_policy.1 PrescriptionStatus.DELIVERED, rfl,
   chat_lock_policy.2.1 chatStC8 "RX-LOCKED" "PATIENT" "hello" "general" "MSG-1" 5
     PrescriptionStatus.DELIVERED rfl rfl,
   rfl,
   chat_lock_policy.2.2.1 chatStC8 "RX-9999" "PATIENT" "hello" "general" "MSG-1" 5 rfl,
   chat_lock_policy.2.2.2 chatStC8 "RX-LOCKED" PrescriptionStatus.DELIVERED rfl⟩

/-- C9: a REJECTED order — terminal for the lifecycle — keeps a writable
chat: the lock covers only DELIVERED and PICKED_UP, so send_message
succeeds, stores the message and returns it with no error. -/
theorem rejected_chat_writable (st : ChatState) (oid sender msg cat mid : String) (now : Int)
    (h : _get_order_status st oid = some PrescriptionStatus.REJECTED) :
    send_message st oid sender msg cat mid now
      = ({ st with messages := st.messages
            ++ [{ id := mid, order_id := oid, sender := sender, message := msg,
                  category := cat, created_at := now }] },
         .ok { id := mid, order_id := oid, sender := sender, message := msg,
               category := cat, created_at := now }) := by
  simp [send_message, h, _is_chat_locked, _LOCKED_STATUSES]

/-- Concrete chat state for the C9 witness: order RX-1007 is REJECTED. -/
def chatStC9 : ChatState :=
  { order_status := [("RX-1007", PrescriptionStatus.REJECTED)], messages := [] }

/-- Witness for C9: sending on the rejected order RX-1007 succeeds and
stores the message. -/
theorem rejected_chat_writable_witness :
    _get_order_status chatStC9 "RX-1007" = some PrescriptionStatus.REJECTED
    ∧ send_message chatStC9 "RX-1007" "PATIENT" "any update?" "general" "MSG-2" 7
        = ({ chatStC9 with messages := chatStC9.messages
              ++ [{ id := "MSG-2", order_id := "RX-1007", sender := "PATIENT",
                    message := "any update?", category := "general", created_at := 7 }] },
           .ok { id := "MSG-2", order_id := "RX-1007", sender := "PATIENT",
                 message := "any update?", category := "general", created_at := 7 }) :=
  ⟨rfl, rejected_chat_writable chatStC9 "RX-1007" "PATIENT" "any update?" "general" "MSG-2" 7 rfl⟩

/- ──────────────────────────────────────────────
   Theorems: inventory listing order (claim C7)
   ────────────────────────────────────────────── -/

/-- Combined listing order: strictly earlier expiry, or equal expiry with
the smaller item id (ids compared as character sequences). -/
def expiryIdOrder (a b : InventoryItem) : Prop :=
  a.expiry_date < b.expiry_date ∨ (a.expiry_date = b.expiry_date ∧ a.id.data < b.id.data)

theorem expiryIdOrder_le {a b : InventoryItem} (h : expiryIdOrder a b) :
    a.expiry_date ≤ b.expiry_date := by
  rcases h with h | ⟨h, _⟩
  · exact le_of_lt h
  · exact le_of_eq h

theorem mem_insertByExpiry (a b : InventoryItem) (l : List InventoryItem) :
    b ∈ insertByExpiry a l ↔ b = a ∨ b ∈ l := by
  induction l with
  | nil => simp [insertByExpiry]
  | cons c l ih =>
    by_cases h : a.expiry_date ≤ c.expiry_date
    · simp [insertByExpiry, h]
    · simp [insertByExpiry, h, ih]
      tauto

theorem pairwise_insertByExpiry (a : InventoryItem) (l : List InventoryItem)
    (hl : l.Pairwise expiryIdOrder) (ha : ∀ b ∈ l, a.id.data < b.id.data) :
    (insertByExpiry a l).Pairwise expiryIdOrder := by
  induction l with
  | nil => simp [insertByExpiry, List.pairwise_cons]
  | cons b l ih =>
    rcases List.pairwise_cons.mp hl with ⟨hb, hl2⟩
    by_cases h : a.expiry_date ≤ b.expiry_date
    · rw [insertByExpiry, if_pos h]
      refine List.pairwise_cons.mpr ⟨?_, hl⟩
      intro c hc
      have hec : a.expiry_date ≤ c.expiry_date := by
        rcases List.mem_cons.mp hc with rfl | hc2
        · exact h
        · exact le_trans h (expiryIdOrder_le (hb c hc2))
      rcases lt_or_eq_of_le hec with hlt | heq
      · exact Or.inl hlt
      · exact Or.inr ⟨heq, ha c hc⟩
    · rw [insertByExpiry, if_neg h]
      refine List.pairwise_cons.mpr ⟨?_, ih hl2 (fun c hc => ha c (List.mem_cons_of_mem b hc))⟩
      intro c hc
      rcases (mem_insertByExpiry a c l).mp hc with rfl | hc
      · exact Or.inl (lt_of_not_le h)
      · exact hb c hc

theorem mem_sortByExpiry (b : InventoryItem) (l : List InventoryItem) :
    b ∈ sortByExpiry l ↔ b ∈ l := by
  induction l with
  | nil => simp [sortByExpiry]
  | cons x xs ih => simp [sortByExpiry, mem_insertByExpiry, ih]

theorem pairwise_sortByExpiry (l : List InventoryItem)
    (hids : l.Pairwise (fun a b => a.id.data < b.id.data)) :
    (sortByExpiry l).Pairwise expiryIdOrder := by
  induction l with
  | nil => simp [sortByExpiry]
  | cons x xs ih =>
    rcases List.pairwise_cons.mp hids with ⟨hx, hxs⟩
    exact pairwise_insertByExpiry x (sortByExpiry xs) (ih hxs)
      (fun b hb => hx b ((mem_sortByExpiry b xs).mp hb))

/-- C7: for every stored inventory whose records carry ascending item ids
— as the seed data does, its ids `INV-001` … `INV-030` being in
insertion order — the listing returns the items in ascending expiry
order, and any two items with identical expiry appear in id order: the
sort is stable, so equal-expiry items keep the id-ordered relative
position they were stored in. -/
theorem list_inventory_sorted (items : List InventoryItem)
    (hids : items.Pairwise (fun a b => a.id.data < b.id.data)) :
    (list_inventory items).Pairwise (fun a b => a.expiry_date ≤ b.expiry_date)
    ∧ (list_inventory items).Pairwise
        (fun a b => a.expiry_date = b.expiry_date → a.id.data < b.id.data) := by
  have h := pairwise_sortByExpiry items hids
  constructor
  · exact h.imp (fun hab => expiryIdOrder_le hab)
  · refine h.imp (fun hab => ?_)
    intro he
    rcases hab with h1 | ⟨_, h2⟩
    · exact absurd (he ▸ h1) (lt_irrefl _)
    · exact h2

/-- Concrete store for the C7 witness: three id-ascending items, the last
two sharing an expiry date. -/
def itemsC7 : List InventoryItem :=
  [{ id := "INV-001", drug_name := "Amoxicillin", quantity := 120, expiry_date := 500, threshold := 10 },
   { id := "INV-002", drug_name := "Paracetamol", quantity := 8, expiry_date := 300, threshold := 10 },
   { id := "INV-003", drug_name := "Pantoprazole", quantity := 45, expiry_date := 300, threshold := 10 }]

/-- Witness for C7: on the concrete id-ascending store with an expiry
tie, the listing is expiry-sorted and breaks the tie by id. -/
theorem list_inventory_sorted_witness :
    itemsC7.Pairwise (fun a b => a.id.data < b.id.data)
    ∧ ((list_inventory itemsC7).Pairwise (fun a b => a.expiry_date ≤ b.expiry_date)
        ∧ (list_inventory itemsC7).Pairwise
            (fun a b => a.expiry_date = b.expiry_date → a.id.data < b.id.data)) :=
  ⟨by decide, list_inventory_sorted itemsC7 (by decide)⟩

/- ──────────────────────────────────────────────
   Lifecycle helper lemmas
   ────────────────────────────────────────────── -/

theorem find_map_set (l : List (String × OrderDoc)) (oid : String) (d0 doc : OrderDoc)
    (h : ((l.find? (fun p => p.1 == oid)).map (·.2)) = some d0) :
    (((l.map (fun p => if p.1 == oid then (p.1, doc) else p)).find?
        (fun p => p.1 == oid)).map (·.2)) = some doc := by
  induction l with
  | nil => simp at h
  | cons x xs ih =>
    by_cases hx : (x.1 == oid) = true
    · have hx2 : (((x.1, doc) : String × OrderDoc).1 == oid) = true := hx
      rw [List.map_cons, if_pos hx,
        @List.find?_cons_of_pos _ (fun p => p.1 == oid) (x.1, doc) _ hx2]
      rfl
    · rw [@List.find?_cons_of_neg _ (fun p => p.1 == oid) x _ hx] at h
      rw [List.map_cons, if_neg hx,
        @List.find?_cons_of_neg _ (fun p => p.1 == oid) x _ hx]
      exact ih h

/-- A document written back under an existing id is what a subsequent read
returns. -/
theorem lookupOrder_setOrder_self (sys : PharmacySys) (oid : String) (d0 doc : OrderDoc)
    (h : lookupOrder sys oid = some d0) :
    lookupOrder (setOrder sys oid doc) oid = some doc :=
  find_map_set sys.orders oid d0 doc h

/-- Full behaviour of `update_order_status` on an existing order: the
stored document gets the target status, the timestamp matching the target
is stamped with `now` (overwriting any prior value) and the others are
kept; the effect trace is the notification (only for READY, and before
the commit) followed by the commit. -/
theorem update_order_status_eq (sys : PharmacySys) (oid : String) (doc : OrderDoc)
    (target : PrescriptionStatus) (now : Int)
    (hdoc : lookupOrder sys oid = some doc) :
    update_order_status sys oid target now
      = (setOrder sys oid
          { doc with
            status := target
            accepted_at := if target = .ACCEPTED then some now else doc.accepted_at
            ready_at := if target = .READY then some now else doc.ready_at
            completed_at :=
              if target = .DELIVERED ∨ target = .PICKED_UP then some now
              else doc.completed_at },
         some { id := oid, status := target, color_code := STATUS_COLOR_MAP target,
                updated_at := now },
         (if target = .READY then [Event.notifyReady oid] else [])
           ++ [Event.commitStatus oid target]) := by
  unfold update_order_status
  rw [hdoc]

/-- Full behaviour of `agentic_status_update` on an existing order when
the stock gate does not fire (the target needs no validation, or the
validator passes): the status update is applied, the response is success,
and the trace is the update's own effects followed by the background
decrement task (only for ACCEPTED) and the background timeline append. -/
theorem agentic_success (validate : StockValidator) (sys : PharmacySys) (oid : String)
    (doc : OrderDoc) (target : PrescriptionStatus) (actor : String) (now : Int)
    (hdoc : lookupOrder sys oid = some doc)
    (hgate : target = .ACCEPTED ∨ target = .PREPARING →
      (validate doc.medications sys.inventory).1 = true) :
    agentic_status_update validate sys oid target actor now
      = (setOrder sys oid
          { doc with
            status := target
            accepted_at := if target = .ACCEPTED then some now else doc.accepted_at
            ready_at := if target = .READY then some now else doc.ready_at
            completed_at :=
              if target = .DELIVERED ∨ target = .PICKED_UP then some now
              else doc.completed_at },
         .ok { id := oid, status := target, color_code := STATUS_COLOR_MAP target,
               updated_at := now },
         ((if target = .READY then [Event.notifyReady oid] else [])
             ++ [Event.commitStatus oid target])
           ++ (if target = .ACCEPTED then [Event.decrement oid] else [])
           ++ [Event.logStatus oid doc.status target actor]) := by
  unfold agentic_status_update
  rw [hdoc]
  by_cases hc : target = PrescriptionStatus.ACCEPTED ∨ target = PrescriptionStatus.PREPARING
  · have hv := hgate hc
    simp only [hc, if_pos, hv, if_true,
      update_order_status_eq sys oid doc target now hdoc]
  · simp only [hc, if_neg, if_false,
      update_order_status_eq sys oid doc target now hdoc]

theorem countDecrements_append (a b : List Event) (oid : String) :
    countDecrements (a ++ b) oid = countDecrements a oid + countDecrements b oid := by
  simp [countDecrements, List.filter_append]

theorem countDecrements_nil (oid : String) : countDecrements [] oid = 0 := rfl

theorem countDecrements_notify (o oid : String) :
    countDecrements [Event.notifyReady o] oid = 0 := by
  simp [countDecrements]

theorem countDecrements_commit (o : String) (s : PrescriptionStatus) (oid : String) :
    countDecrements [Event.commitStatus o s] oid = 0 := by
  simp [countDecrements]

theorem countDecrements_log (o : String) (s1 s2 : PrescriptionStatus) (actor oid : String) :
    countDecrements [Event.logStatus o s1 s2 actor] oid = 0 := by
  simp [countDecrements]

theorem countDecrements_single_le (e : Event) (oid : String) :
    countDecrements [e] oid ≤ 1 :=
  List.length_filter_le _ _

/- ──────────────────────────────────────────────
   Theorems: decrement idempotency (claim C1)
   ────────────────────────────────────────────── -/

/-- Concrete order document for the C1 scenario: RX-1001, status NEW. -/
def docC1 : OrderDoc :=
  { status := .NEW, medications := ["Amoxicillin", "Paracetamol"],
    created_at := some 0, accepted_at := none, ready_at := none, completed_at := none }

/-- Concrete system for the C1 scenario: RX-1001 with ample stock of both
medications. -/
def sysC1 : PharmacySys :=
  { orders := [("RX-1001", docC1)],
    inventory :=
      [{ id := "INV-001", drug_name := "Amoxicillin", quantity := 120,
         expiry_date := 15552000, threshold := 10 },
       { id := "INV-002", drug_name := "Paracetamol", quantity := 8,
         expiry_date := 7776000, threshold := 10 }] }

/-- C1 counterexample: two sequential transition requests into ACCEPTED
for order RX-1001 both succeed — the endpoint never consults the current
status and keeps no per-order synced marker — and the inventory decrement
task is invoked twice for that order id, refuting at-most-once per order. -/
theorem decrement_invoked_twice :
    countDecrements
      (runRequests validate_stock_for_order_spec sysC1
        [{ order_id := "RX-1001", target := .ACCEPTED, actor_id := "pharmacist-1", now := 100 },
         { order_id := "RX-1001", target := .ACCEPTED, actor_id := "pharmacist-1", now := 200 }]).2
      "RX-1001" = 2 := by decide

theorem countDecrements_trace_le (oid oid2 actor : String) (target old : PrescriptionStatus) :
    countDecrements
      (((if target = PrescriptionStatus.READY then [Event.notifyReady oid] else [])
          ++ [Event.commitStatus oid target])
        ++ (if target = PrescriptionStatus.ACCEPTED then [Event.decrement oid] else [])
        ++ [Event.logStatus oid old target actor]) oid2 ≤ 1 := by
  rw [countDecrements_append, countDecrements_append, countDecrements_append]
  have hpre : countDecrements
      (if target = PrescriptionStatus.READY then [Event.notifyReady oid] else []) oid2 = 0 := by
    split
    · exact countDecrements_notify oid oid2
    · exact countDecrements_nil oid2
  have hbg : countDecrements
      (if target = PrescriptionStatus.ACCEPTED then [Event.decrement oid] else []) oid2 ≤ 1 := by
    split
    · exact countDecrements_single_le _ oid2
    · rw [countDecrements_nil]
      omega
  rw [hpre, countDecrements_commit, countDecrements_log]
  omega

/-- C1 amended: the decrement task is invoked at most once per transition
request — scheduled only when the target is ACCEPTED — not at most once
per order id: each further request into ACCEPTED schedules it again. -/
theorem decrement_at_most_once_per_request (validate : StockValidator) (sys : PharmacySys)
    (oid : String) (target : PrescriptionStatus) (actor : String) (now : Int) (oid2 : String) :
    countDecrements (agentic_status_update validate sys oid target actor now).2.2 oid2 ≤ 1 := by
  rcases h : lookupOrder sys oid with _ | doc
  · simp [agentic_status_update, h, countDecrements]
  · by_cases hc : target = PrescriptionStatus.ACCEPTED ∨ target = PrescriptionStatus.PREPARING
    · by_cases hv : (validate doc.medications sys.inventory).1 = true
      · rw [agentic_success validate sys oid doc target actor now h (fun _ => hv)]
        exact countDecrements_trace_le oid oid2 actor target doc.status
      · have hv2 : (validate doc.medications sys.inventory).1 = false := by
          cases hvv : (validate doc.medications sys.inventory).1
          · rfl
          · exact absurd hvv hv
        unfold agentic_status_update
        rw [h]
        simp [hc, hv2, countDecrements]
    · rw [agentic_success validate sys oid doc target actor now h (fun hcc => absurd hcc hc)]
      exact countDecrements_trace_le oid oid2 actor target doc.status

/- ──────────────────────────────────────────────
   Theorems: transition legality (claim C2)
   ────────────────────────────────────────────── -/

/-- Concrete order document for the C2 scenario: RX-1005, DELIVERED, all
timestamps set. -/
def docC2 : OrderDoc :=
  { status := .DELIVERED, medications := ["Cetirizine"],
    created_at := some 0, accepted_at := some 10, ready_at := some 20, completed_at := some 30 }

/-- Concrete system for the C2 scenario. -/
def sysC2 : PharmacySys :=
  { orders := [("RX-1005", docC2)], inventory := [] }

/-- C2 counterexample: RX-1005 is DELIVERED — a terminal status — yet a
transition request targeting NEW succeeds (no InvalidTransition failure
exists anywhere in the code) and the stored status regresses to NEW. -/
theorem terminal_order_mutated :
    (agentic_status_update validate_stock_for_order_spec sysC2 "RX-1005"
        PrescriptionStatus.NEW "pharmacist-1" 1000).2.1
      = TransitionResponse.ok
          { id := "RX-1005", status := .NEW, color_code := "teal", updated_at := 1000 }
    ∧ ((lookupOrder (agentic_status_update validate_stock_for_order_spec sysC2 "RX-1005"
          PrescriptionStatus.NEW "pharmacist-1" 1000).1 "RX-1005").map (fun d => d.status))
      = some PrescriptionStatus.NEW := by decide

/-- C2 amended: no transition-legality validation exists. For every
existing order — terminal or not, regression or not — a transition whose
stock gate does not fire succeeds, returns the target status, and
overwrites the stored status with the target (restamping its timestamp
per C4); nothing ever fails with InvalidTransition. -/
theorem no_transition_validation (validate : StockValidator) (sys : PharmacySys)
    (oid : String) (doc : OrderDoc) (target : PrescriptionStatus) (actor : String) (now : Int)
    (hdoc : lookupOrder sys oid = some doc)
    (hgate : target = .ACCEPTED ∨ target = .PREPARING →
      (validate doc.medications sys.inventory).1 = true) :
    (agentic_status_update validate sys oid target actor now).2.1
      = .ok { id := oid, status := target, color_code := STATUS_COLOR_MAP target,
              updated_at := now }
    ∧ ((lookupOrder (agentic_status_update validate sys oid target actor now).1 oid).map
        (fun d => d.status)) = some target := by
  rw [agentic_success validate sys oid doc target actor now hdoc hgate]
  refine ⟨rfl, ?_⟩
  rw [lookupOrder_setOrder_self sys oid doc _ hdoc]
  rfl

/-- Witness for the amended C2: the terminal DELIVERED order RX-1005
accepts a regression to READY. -/
theorem no_transition_validation_witness :
    lookupOrder sysC2 "RX-1005" = some docC2
    ∧ ((agentic_status_update validate_stock_for_order_spec sysC2 "RX-1005"
          PrescriptionStatus.READY "pharmacist-1" 2000).2.1
        = .ok { id := "RX-1005", status := .READY, color_code := "green", updated_at := 2000 }
      ∧ ((lookupOrder (agentic_status_update validate_stock_for_order_spec sysC2 "RX-1005"
            PrescriptionStatus.READY "pharmacist-1" 2000).1 "RX-1005").map
          (fun d => d.status)) = some PrescriptionStatus.READY) :=
  ⟨rfl, no_transition_validation validate_stock_for_order_spec sysC2 "RX-1005" docC2
      PrescriptionStatus.READY "pharmacist-1" 2000 rfl (by decide)⟩

/- ──────────────────────────────────────────────
   Theorems: stock gate (claim C3)
   ────────────────────────────────────────────── -/

/-- Concrete order document for the C3 scenario: RX-2000 requesting
Azithromycin, status NEW. -/
def docC3 : OrderDoc :=
  { status := .NEW, medications := ["Azithromycin"],
    created_at := some 0, accepted_at := none, ready_at := none, completed_at := none }

/-- Concrete system for the C3 scenario: the Azithromycin ledger record
has quantity zero. -/
def sysC3 : PharmacySys :=
  { orders := [("RX-2000", docC3)],
    inventory := [{ id := "INV-008", drug_name := "Azithromycin", quantity := 0,
                    expiry_date := 3456000, threshold := 5 }] }

/-- C3 evaluated on the code as shipped, at the failing input: the
endpoint's docstring promises a 400 with INSUFFICIENT_STOCK when stock
validation fails during the ACCEPTED transition, and the repository's own
test asserts exactly that response once the validator reports a shortage
— but the `validate_stock_for_order` the endpoint actually imports is the
always-valid stub of `app/services/inventory_agent.py`, so the shortage
path is unreachable. Transitioning RX-2000 into ACCEPTED with zero
Azithromycin ledger quantity therefore succeeds: the response is ok, the
stored status becomes ACCEPTED with accepted_at stamped, and the
decrement task is even dispatched for the out-of-stock order — instead of
failing with InsufficientStock and leaving the order NEW as the claim
(and the endpoint's documentation) require. -/
theorem zero_stock_order_accepted :
    available_quantity sysC3.inventory "Azithromycin" = 0
    ∧ validate_stock_for_order_mock docC3.medications sysC3.inventory = (true, [])
    ∧ (agentic_status_update validate_stock_for_order_mock sysC3 "RX-2000"
        PrescriptionStatus.ACCEPTED "pharmacist-1" 100).2.1
      = TransitionResponse.ok
          { id := "RX-2000", status := .ACCEPTED, color_code := "blue", updated_at := 100 }
    ∧ ((lookupOrder (agentic_status_update validate_stock_for_order_mock sysC3 "RX-2000"
          PrescriptionStatus.ACCEPTED "pharmacist-1" 100).1 "RX-2000").map
        (fun d => d.status)) = some PrescriptionStatus.ACCEPTED
    ∧ ((lookupOrder (agentic_status_update validate_stock_for_order_mock sysC3 "RX-2000"
          PrescriptionStatus.ACCEPTED "pharmacist-1" 100).1 "RX-2000").map
        (fun d => d.accepted_at)) = some (some 100)
    ∧ countDecrements
        (agentic_status_update validate_stock_for_order_mock sysC3 "RX-2000"
          PrescriptionStatus.ACCEPTED "pharmacist-1" 100).2.2 "RX-2000" = 1 := by decide

/- ──────────────────────────────────────────────
   Theorems: timestamp stamping (claim C4)
   ────────────────────────────────────────────── -/

/-- Concrete order document for the C4 scenario: RX-1002, ACCEPTED, with
accepted_at already set to 100. -/
def docC4 : OrderDoc :=
  { status := .ACCEPTED, medications := ["Paracetamol"],
    created_at := some 0, accepted_at := some 100, ready_at := none, completed_at := none }

/-- Concrete system for the C4 scenario. -/
def sysC4 : PharmacySys :=
  { orders := [("RX-1002", docC4)], inventory := [] }

/-- C4 counterexample: RX-1002 already carries accepted_at = 100; a later
transition into ACCEPTED at time 200 overwrites it to 200, refuting that
an already-set timestamp is never overwritten. -/
theorem accepted_at_overwritten :
    ((lookupOrder sysC4 "RX-1002").map (fun d => d.accepted_at)) = some (some 100)
    ∧ ((lookupOrder (update_order_status sysC4 "RX-1002" PrescriptionStatus.ACCEPTED 200).1
          "RX-1002").map (fun d => d.accepted_at)) = some (some 200) := by decide

/-- C4 amended: on every successful transition the timestamp matching the
target status is stamped with the current wall-clock time — accepted_at
for ACCEPTED, ready_at for READY, completed_at for DELIVERED or
PICKED_UP — unconditionally, overwriting any value already set (there is
no overwrite protection); the timestamps of the other statuses are left
unchanged. -/
theorem status_update_stamps (sys : PharmacySys) (oid : String) (doc : OrderDoc)
    (target : PrescriptionStatus) (now : Int)
    (hdoc : lookupOrder sys oid = some doc) :
    (update_order_status sys oid target now).2.1
      = some { id := oid, status := target, color_code := STATUS_COLOR_MAP target,
               updated_at := now }
    ∧ lookupOrder (update_order_status sys oid target now).1 oid
      = some { doc with
          status := target
          accepted_at := if target = .ACCEPTED then some now else doc.accepted_at
          ready_at := if target = .READY then some now else doc.ready_at
          completed_at :=
            if target = .DELIVERED ∨ target = .PICKED_UP then some now
            else doc.completed_at } := by
  rw [update_order_status_eq sys oid doc target now hdoc]
  exact ⟨rfl, lookupOrder_setOrder_self sys oid doc _ hdoc⟩

/-- Witness for the amended C4: transitioning RX-1002 into READY at time
300 stamps ready_at = 300 and keeps created_at, accepted_at and
completed_at. -/
theorem status_update_stamps_witness :
    lookupOrder sysC4 "RX-1002" = some docC4
    ∧ ((update_order_status sysC4 "RX-1002" PrescriptionStatus.READY 300).2.1
        = some { id := "RX-1002", status := .READY, color_code := "green", updated_at := 300 }
      ∧ lookupOrder (update_order_status sysC4 "RX-1002" PrescriptionStatus.READY 300).1
          "RX-1002"
        = some { docC4 with status := .READY, ready_at := some 300 }) :=
  ⟨rfl, status_update_stamps sysC4 "RX-1002" docC4 PrescriptionStatus.READY 300 rfl⟩

/- ──────────────────────────────────────────────
   Theorems: side-effect ordering (claim C5)
   ────────────────────────────────────────────── -/

/-- Concrete order document for the C5 scenario: RX-1004, PREPARING. -/
def docC5 : OrderDoc :=
  { status := .PREPARING, medications := ["Cetirizine"],
    created_at := some 0, accepted_at := some 10, ready_at := none, completed_at := none }

/-- Concrete system for the C5 scenario. -/
def sysC5 : PharmacySys :=
  { orders := [("RX-1004", docC5)], inventory := [] }

/-- C5 counterexample: on the transition of RX-1004 into READY the patient
notification is the first dispatched effect — ahead of the status commit,
because `_notify_patient_ready` is invoked on the pre-update document
inside `update_order_status` before the store update — refuting that
every side effect is dispatched only after the mutation commits. -/
theorem notify_before_commit :
    (agentic_status_update validate_stock_for_order_spec sysC5 "RX-1004"
        PrescriptionStatus.READY "pharmacist-1" 500).2.2
      = [Event.notifyReady "RX-1004",
         Event.commitStatus "RX-1004" PrescriptionStatus.READY,
         Event.logStatus "RX-1004" PrescriptionStatus.PREPARING PrescriptionStatus.READY
           "pharmacist-1"]
    ∧ (agentic_status_update validate_stock_for_order_spec sysC5 "RX-1004"
        PrescriptionStatus.READY "pharmacist-1" 500).2.2.head?
      = some (Event.notifyReady "RX-1004") := by decide

/-- C5 amended: the background decrement task and the timeline append are
dispatched after the status commit, but the notification on entry into
READY is dispatched immediately before the status and ready_at are
persisted, not after. -/
theorem side_effect_order (validate : StockValidator) (sys : PharmacySys) (oid : String)
    (doc : OrderDoc) (target : PrescriptionStatus) (actor : String) (now : Int)
    (hdoc : lookupOrder sys oid = some doc)
    (hgate : target = .ACCEPTED ∨ target = .PREPARING →
      (validate doc.medications sys.inventory).1 = true) :
    (agentic_status_update validate sys oid target actor now).2.2
      = ((if target = .READY then [Event.notifyReady oid] else [])
          ++ [Event.commitStatus oid target])
        ++ (if target = .ACCEPTED then [Event.decrement oid] else [])
        ++ [Event.logStatus oid doc.status target actor] := by
  rw [agentic_success validate sys oid doc target actor now hdoc hgate]

/-- Witness for the amended C5, at the READY transition of RX-1004. -/
theorem side_effect_order_witness :
    lookupOrder sysC5 "RX-1004" = some docC5
    ∧ (agentic_status_update validate_stock_for_order_spec sysC5 "RX-1004"
          PrescriptionStatus.READY "pharmacist-1" 500).2.2
      = ((if PrescriptionStatus.READY = PrescriptionStatus.READY
            then [Event.notifyReady "RX-1004"] else [])
          ++ [Event.commitStatus "RX-1004" PrescriptionStatus.READY])
        ++ (if PrescriptionStatus.READY = PrescriptionStatus.ACCEPTED
            then [Event.decrement "RX-1004"] else [])
        ++ [Event.logStatus "RX-1004" docC5.status PrescriptionStatus.READY "pharmacist-1"] :=
  ⟨rfl, side_effect_order validate_stock_for_order_spec sysC5 "RX-1004" docC5
      PrescriptionStatus.READY "pharmacist-1" 500 rfl (by decide)⟩

end Pharmacy
